import Mathlib

/-!
Verification of the inference glue in `mmdet/apis/inference.py` (MI-AOD).

A 2-D float tensor of shape (N, F) is embedded as a `List (List ℝ)`:
a list of N rows, each row a list of F feature values.  Elementwise
binary tensor operations on same-shape tensors become `List.zipWith`
of `List.zipWith`; elementwise unary operations become `List.map` of
`List.map`; `torch.log` becomes `Real.log`; `.mean(dim=1)` becomes
`fun r => r.sum / r.length` applied to every row.
-/

namespace MIAOD

/-- Elementwise unary operation on a 2-D tensor. -/
def tmap (f : ℝ → ℝ) (t : List (List ℝ)) : List (List ℝ) :=
  t.map (List.map f)

/-- Elementwise binary operation on two 2-D tensors. -/
def tzip (f : ℝ → ℝ → ℝ) (a b : List (List ℝ)) : List (List ℝ) :=
  List.zipWith (List.zipWith f) a b

/-- Embedding of `torch.log`, applied elementwise. -/
noncomputable def tlog (t : List (List ℝ)) : List (List ℝ) :=
  tmap Real.log t

/-- Embedding of `.mean(dim=1)`: the arithmetic mean of every row. -/
noncomputable def mean1 (t : List (List ℝ)) : List ℝ :=
  t.map (fun r => r.sum / (r.length : ℝ))

/-- Line 124: `loss_p = (y_head_f_1 - y_head_f_2).pow(2)`. -/
noncomputable def loss_l2 (y1 y2 : List (List ℝ)) : List (List ℝ) :=
  tmap (fun x => x ^ 2) (tzip (fun a b => a - b) y1 y2)

/-- Line 127: `loss_p = y_head_f_1 * torch.log(y_head_f_1 / y_head_f_2)`. -/
noncomputable def loss_kl (y1 y2 : List (List ℝ)) : List (List ℝ) :=
  tzip (fun a b => a * b) y1 (tlog (tzip (fun a b => a / b) y1 y2))

/-- Line 131 and line 145:
`-(y_head_f_1 * torch.log(y_head_f_2) + (1 - y_head_f_1) * torch.log(1 - y_head_f_2))`. -/
noncomputable def loss_ce (y1 y2 : List (List ℝ)) : List (List ℝ) :=
  tmap (fun x => -x)
    (tzip (fun a b => a + b)
      (tzip (fun a b => a * b) y1 (tlog y2))
      (tzip (fun a b => a * b) (tmap (fun a => 1 - a) y1) (tlog (tmap (fun b => 1 - b) y2))))

/-- Line 135: `kl_diver = lambda p, q: p * torch.log(p / q)`. -/
noncomputable def kl_diver (p q : List (List ℝ)) : List (List ℝ) :=
  tzip (fun a b => a * b) p (tlog (tzip (fun a b => a / b) p q))

/-- Lines 136-137: `loss_p = 0.5 * kl_diver(y1, (y1+y2)/2); loss_p += 0.5 * kl_diver(y2, (y1+y2)/2)`. -/
noncomputable def loss_js (y1 y2 : List (List ℝ)) : List (List ℝ) :=
  tzip (fun a b => a + b)
    (tmap (fun x => 0.5 * x) (kl_diver y1 (tmap (fun x => x / 2) (tzip (fun a b => a + b) y1 y2))))
    (tmap (fun x => 0.5 * x) (kl_diver y2 (tmap (fun x => x / 2) (tzip (fun a b => a + b) y1 y2))))

/-- Line 142: `p_t = (y1 * y2) + ((1 - y1) * (1 - y2))`. -/
noncomputable def p_t (y1 y2 : List (List ℝ)) : List (List ℝ) :=
  tzip (fun a b => a + b)
    (tzip (fun a b => a * b) y1 y2)
    (tzip (fun a b => a * b) (tmap (fun a => 1 - a) y1) (tmap (fun b => 1 - b) y2))

/-- Line 148 with `alpha = 0.25`: `alpha_factor = y1 * alpha + (1 - y1) * (1 - alpha)`. -/
noncomputable def alpha_factor (y1 : List (List ℝ)) : List (List ℝ) :=
  tmap (fun a => a * 0.25 + (1 - a) * (1 - 0.25)) y1

/-- Line 150 with `gamma = 2`: `modulating_factor = (1. - p_t).pow(gamma)`. -/
noncomputable def modulating_factor (y1 y2 : List (List ℝ)) : List (List ℝ) :=
  tmap (fun p => (1 - p) ^ 2) (p_t y1 y2)

/-- Lines 140-152: the focal-loss weighted cross entropy
`alpha_factor * modulating_factor * ce`. -/
noncomputable def loss_focal (y1 y2 : List (List ℝ)) : List (List ℝ) :=
  tzip (fun a b => a * b)
    (tzip (fun a b => a * b) (alpha_factor y1) (modulating_factor y1 y2))
    (loss_ce y1 y2)

/-- Lines 154-155: the list of valid uncertainty type names. -/
def uncertainty_types : List String :=
  ["l2_norm", "kl_divergence", "cross_entropy", "js_divergence", "focal_loss"]

/-- Payload of the `ValueError` raised on lines 156-158: the message is an
f-string built from the offending `cfg.uncertainty_type` value and the
`uncertainty_types` list, so we record exactly those two components. -/
structure ValueErrorData where
  offending : String
  valid : List String
  deriving DecidableEq

/-- Lines 123-158 of `inference_detector`: dispatch on `cfg.uncertainty_type`,
compute the per-element loss tensor for the selected formula, and reduce it
to a per-sample vector `uncertainty_all_N` with `.mean(dim=1)`; an
unrecognized name raises `ValueError` (embedded as `Except.error`). -/
noncomputable def uncertainty_all_N (utype : String) (y1 y2 : List (List ℝ)) :
    Except ValueErrorData (List ℝ) :=
  if utype = "l2_norm" then .ok (mean1 (loss_l2 y1 y2))
  else if utype = "kl_divergence" then .ok (mean1 (loss_kl y1 y2))
  else if utype = "cross_entropy" then .ok (mean1 (loss_ce y1 y2))
  else if utype = "js_divergence" then .ok (mean1 (loss_js y1 y2))
  else if utype = "focal_loss" then .ok (mean1 (loss_focal y1 y2))
  else .error ⟨utype, uncertainty_types⟩

/-- Two same-shape tensors: rowwise equal lengths. -/
def SameShape (y1 y2 : List (List ℝ)) : Prop :=
  List.Forall₂ (fun r1 r2 => r1.length = r2.length) y1 y2

/-! ### zipWith fusion lemmas -/

theorem zipWith_ext {α β γ : Type*} {f g : α → β → γ} (h : ∀ a b, f a b = g a b)
    (l1 : List α) (l2 : List β) : List.zipWith f l1 l2 = List.zipWith g l1 l2 := by
  have hfg : f = g := funext fun a => funext fun b => h a b
  rw [hfg]

theorem zipWith_left_dup {α β γ δ : Type*} (f : α → γ → δ) (g : α → β → γ) :
    ∀ (a : List α) (b : List β),
      List.zipWith f a (List.zipWith g a b) = List.zipWith (fun x y => f x (g x y)) a b
  | [], _ => by simp
  | _ :: _, [] => by simp
  | x :: a, y :: b => by
      simp only [List.zipWith_cons_cons, List.cons.injEq, true_and]
      exact zipWith_left_dup f g a b

theorem zipWith_right_dup {α β γ δ : Type*} (f : β → γ → δ) (g : α → β → γ) :
    ∀ (a : List α) (b : List β),
      List.zipWith f b (List.zipWith g a b) = List.zipWith (fun x y => f y (g x y)) a b
  | [], _ => by simp
  | _ :: _, [] => by simp
  | x :: a, y :: b => by
      simp only [List.zipWith_cons_cons, List.cons.injEq, true_and]
      exact zipWith_right_dup f g a b

theorem zipWith_dup2 {α β γ δ ε : Type*} (f : γ → δ → ε) (g : α → β → γ) (h : α → β → δ) :
    ∀ (a : List α) (b : List β),
      List.zipWith f (List.zipWith g a b) (List.zipWith h a b)
        = List.zipWith (fun x y => f (g x y) (h x y)) a b
  | [], _ => by simp
  | _ :: _, [] => by simp
  | x :: a, y :: b => by
      simp only [List.zipWith_cons_cons, List.cons.injEq, true_and]
      exact zipWith_dup2 f g h a b

/-! ### Normal forms of the five loss tensors: each is a single elementwise
formula applied to the two input tensors, in the shape the spec states it. -/

theorem loss_l2_eq (y1 y2 : List (List ℝ)) :
    loss_l2 y1 y2 = tzip (fun a b => (a - b) ^ 2) y1 y2 := by
  unfold loss_l2 tmap tzip
  simp only [List.map_map, Function.comp_def, List.map_zipWith, List.zipWith_map,
    List.zipWith_map_left, List.zipWith_map_right, zipWith_left_dup, zipWith_right_dup,
    zipWith_dup2]

theorem loss_kl_eq (y1 y2 : List (List ℝ)) :
    loss_kl y1 y2 = tzip (fun a b => a * Real.log (a / b)) y1 y2 := by
  unfold loss_kl tlog tmap tzip
  simp only [List.map_map, Function.comp_def, List.map_zipWith, List.zipWith_map,
    List.zipWith_map_left, List.zipWith_map_right, zipWith_left_dup, zipWith_right_dup,
    zipWith_dup2]

theorem loss_ce_eq (y1 y2 : List (List ℝ)) :
    loss_ce y1 y2
      = tzip (fun a b => -(a * Real.log b + (1 - a) * Real.log (1 - b))) y1 y2 := by
  unfold loss_ce tlog tmap tzip
  simp only [List.map_map, Function.comp_def, List.map_zipWith, List.zipWith_map,
    List.zipWith_map_left, List.zipWith_map_right, zipWith_left_dup, zipWith_right_dup,
    zipWith_dup2]

theorem loss_js_eq (y1 y2 : List (List ℝ)) :
    loss_js y1 y2
      = tzip (fun a b =>
          0.5 * a * Real.log (a / ((a + b) / 2))
            + 0.5 * b * Real.log (b / ((a + b) / 2))) y1 y2 := by
  unfold loss_js kl_diver tlog tmap tzip
  simp only [List.map_map, Function.comp_def, List.map_zipWith, List.zipWith_map,
    List.zipWith_map_left, List.zipWith_map_right, zipWith_left_dup, zipWith_right_dup,
    zipWith_dup2]
  exact zipWith_ext (fun r1 r2 => zipWith_ext (fun a b => by ring) _ _) _ _

theorem loss_focal_eq (y1 y2 : List (List ℝ)) :
    loss_focal y1 y2
      = tzip (fun a b =>
          (a * 0.25 + (1 - a) * (1 - 0.25))
            * (1 - (a * b + (1 - a) * (1 - b))) ^ 2
            * (-(a * Real.log b + (1 - a) * Real.log (1 - b)))) y1 y2 := by
  unfold loss_focal alpha_factor modulating_factor p_t loss_ce tlog tmap tzip
  simp only [List.map_map, Function.comp_def, List.map_zipWith, List.zipWith_map,
    List.zipWith_map_left, List.zipWith_map_right, zipWith_left_dup, zipWith_right_dup,
    zipWith_dup2]

/-! ### The mean over the feature dimension -/

theorem mean1_tzip {F : ℝ → ℝ → ℝ} {y1 y2 : List (List ℝ)} (h : SameShape y1 y2) :
    mean1 (tzip F y1 y2)
      = List.zipWith (fun r1 r2 => (List.zipWith F r1 r2).sum / (r1.length : ℝ)) y1 y2 := by
  unfold mean1 tzip
  rw [List.map_zipWith]
  refine List.zipWith_congr _ _ _ _ (h.imp ?_)
  intro r1 r2 hr
  rw [List.length_zipWith, hr, min_self]

/-! ### Spec-side per-sample formulas (stated from the spec text, to be
compared with the code embedding): each applies the named elementwise
formula and reduces it by the arithmetic mean over the feature dimension. -/

/-- Spec formula: per-sample mean over features of `(y1 - y2)^2`. -/
noncomputable def spec_row_l2 (r1 r2 : List ℝ) : ℝ :=
  (List.zipWith (fun a b => (a - b) ^ 2) r1 r2).sum / (r1.length : ℝ)

/-- Spec formula: per-sample mean over features of `y1 * log(y1 / y2)`. -/
noncomputable def spec_row_kl (r1 r2 : List ℝ) : ℝ :=
  (List.zipWith (fun a b => a * Real.log (a / b)) r1 r2).sum / (r1.length : ℝ)

/-- Spec formula: per-sample mean over features of
`-(y1 * log(y2) + (1 - y1) * log(1 - y2))`. -/
noncomputable def spec_row_ce (r1 r2 : List ℝ) : ℝ :=
  (List.zipWith (fun a b => -(a * Real.log b + (1 - a) * Real.log (1 - b))) r1 r2).sum
    / (r1.length : ℝ)

/-- Spec formula: per-sample mean over features of
`0.5 * y1 * log(y1 / m) + 0.5 * y2 * log(y2 / m)` with `m = (y1 + y2) / 2`. -/
noncomputable def spec_row_js (r1 r2 : List ℝ) : ℝ :=
  (List.zipWith (fun a b =>
      0.5 * a * Real.log (a / ((a + b) / 2))
        + 0.5 * b * Real.log (b / ((a + b) / 2))) r1 r2).sum / (r1.length : ℝ)

/-- Spec formula: per-sample mean over features of the alpha = 0.25, gamma = 2
weighted cross entropy. -/
noncomputable def spec_row_focal (r1 r2 : List ℝ) : ℝ :=
  (List.zipWith (fun a b =>
      (a * 0.25 + (1 - a) * (1 - 0.25))
        * (1 - (a * b + (1 - a) * (1 - b))) ^ 2
        * (-(a * Real.log b + (1 - a) * Real.log (1 - b)))) r1 r2).sum / (r1.length : ℝ)

/-! ### Unfolding the dispatch on cfg.uncertainty_type -/

theorem uncertainty_all_N_l2 (y1 y2 : List (List ℝ)) :
    uncertainty_all_N "l2_norm" y1 y2 = .ok (mean1 (loss_l2 y1 y2)) := by
  unfold uncertainty_all_N
  rw [if_pos rfl]

theorem uncertainty_all_N_kl (y1 y2 : List (List ℝ)) :
    uncertainty_all_N "kl_divergence" y1 y2 = .ok (mean1 (loss_kl y1 y2)) := by
  unfold uncertainty_all_N
  rw [if_neg (by decide), if_pos rfl]

theorem uncertainty_all_N_ce (y1 y2 : List (List ℝ)) :
    uncertainty_all_N "cross_entropy" y1 y2 = .ok (mean1 (loss_ce y1 y2)) := by
  unfold uncertainty_all_N
  rw [if_neg (by decide), if_neg (by decide), if_pos rfl]

theorem uncertainty_all_N_js (y1 y2 : List (List ℝ)) :
    uncertainty_all_N "js_divergence" y1 y2 = .ok (mean1 (loss_js y1 y2)) := by
  unfold uncertainty_all_N
  rw [if_neg (by decide), if_neg (by decide), if_neg (by decide), if_pos rfl]

theorem uncertainty_all_N_focal (y1 y2 : List (List ℝ)) :
    uncertainty_all_N "focal_loss" y1 y2 = .ok (mean1 (loss_focal y1 y2)) := by
  unfold uncertainty_all_N
  rw [if_neg (by decide), if_neg (by decide), if_neg (by decide), if_neg (by decide),
    if_pos rfl]

/-- C1: for every pair of same-shape post-sigmoid tensors, `inference_detector`
computes the per-sample uncertainty by the formula selected by
`cfg.uncertainty_type` — l2_norm gives (y1-y2)^2, kl_divergence gives
y1*log(y1/y2), cross_entropy gives -(y1*log(y2) + (1-y1)*log(1-y2)),
js_divergence gives 0.5*y1*log(y1/m) + 0.5*y2*log(y2/m) with m = (y1+y2)/2,
and focal_loss gives the alpha = 0.25, gamma = 2 weighted cross entropy — and
in every case reduces it by the arithmetic mean over the feature dimension
(division by the row length, not a bare sum). -/
theorem C1_uncertainty_formulas (y1 y2 : List (List ℝ)) (h : SameShape y1 y2) :
    uncertainty_all_N "l2_norm" y1 y2 = .ok (List.zipWith spec_row_l2 y1 y2)
      ∧ uncertainty_all_N "kl_divergence" y1 y2 = .ok (List.zipWith spec_row_kl y1 y2)
      ∧ uncertainty_all_N "cross_entropy" y1 y2 = .ok (List.zipWith spec_row_ce y1 y2)
      ∧ uncertainty_all_N "js_divergence" y1 y2 = .ok (List.zipWith spec_row_js y1 y2)
      ∧ uncertainty_all_N "focal_loss" y1 y2 = .ok (List.zipWith spec_row_focal y1 y2) := by
  refine ⟨?_, ?_, ?_, ?_, ?_⟩
  · rw [uncertainty_all_N_l2, loss_l2_eq, mean1_tzip h]; rfl
  · rw [uncertainty_all_N_kl, loss_kl_eq, mean1_tzip h]; rfl
  · rw [uncertainty_all_N_ce, loss_ce_eq, mean1_tzip h]; rfl
  · rw [uncertainty_all_N_js, loss_js_eq, mean1_tzip h]; rfl
  · rw [uncertainty_all_N_focal, loss_focal_eq, mean1_tzip h]; rfl

/-- Witness for C1 at the concrete same-shape input y1 = [[1/2]], y2 = [[1/3]]. -/
theorem C1_uncertainty_formulas_witness :
    SameShape [[(1 : ℝ)/2]] [[(1 : ℝ)/3]]
      ∧ uncertainty_all_N "l2_norm" [[(1 : ℝ)/2]] [[(1 : ℝ)/3]]
          = .ok (List.zipWith spec_row_l2 [[(1 : ℝ)/2]] [[(1 : ℝ)/3]]) := by
  have h : SameShape [[(1 : ℝ)/2]] [[(1 : ℝ)/3]] := by
    unfold SameShape
    simp
  exact ⟨h, (C1_uncertainty_formulas _ _ h).1⟩

/-- C3: for every `cfg.uncertainty_type` outside the five valid names,
`inference_detector` raises a ValueError carrying the offending value and the
full list of valid names; for every valid name no such error is raised. -/
theorem C3_invalid_uncertainty_type (utype : String) (y1 y2 : List (List ℝ)) :
    (utype ∉ uncertainty_types →
        uncertainty_all_N utype y1 y2 = .error ⟨utype, uncertainty_types⟩)
      ∧ (utype ∈ uncertainty_types → ∃ v, uncertainty_all_N utype y1 y2 = .ok v) := by
  constructor
  · intro hninv
    have h1 : utype ≠ "l2_norm" := fun he => hninv (by rw [he]; decide)
    have h2 : utype ≠ "kl_divergence" := fun he => hninv (by rw [he]; decide)
    have h3 : utype ≠ "cross_entropy" := fun he => hninv (by rw [he]; decide)
    have h4 : utype ≠ "js_divergence" := fun he => hninv (by rw [he]; decide)
    have h5 : utype ≠ "focal_loss" := fun he => hninv (by rw [he]; decide)
    unfold uncertainty_all_N
    rw [if_neg h1, if_neg h2, if_neg h3, if_neg h4, if_neg h5]
  · intro hv
    unfold uncertainty_types at hv
    simp only [List.mem_cons, List.not_mem_nil, or_false] at hv
    rcases hv with h | h | h | h | h <;> subst h
    · exact ⟨_, uncertainty_all_N_l2 y1 y2⟩
    · exact ⟨_, uncertainty_all_N_kl y1 y2⟩
    · exact ⟨_, uncertainty_all_N_ce y1 y2⟩
    · exact ⟨_, uncertainty_all_N_js y1 y2⟩
    · exact ⟨_, uncertainty_all_N_focal y1 y2⟩

/-- Witness for C3 at the invalid name "bogus" and the valid name "l2_norm". -/
theorem C3_invalid_uncertainty_type_witness :
    ("bogus" ∉ uncertainty_types
        ∧ uncertainty_all_N "bogus" [] [] = .error ⟨"bogus", uncertainty_types⟩)
      ∧ ("l2_norm" ∈ uncertainty_types ∧ ∃ v, uncertainty_all_N "l2_norm" [] [] = .ok v) :=
  ⟨⟨by decide, (C3_invalid_uncertainty_type "bogus" [] []).1 (by decide)⟩,
    ⟨by decide, (C3_invalid_uncertainty_type "l2_norm" [] []).2 (by decide)⟩⟩

/-! ### Identical input tensors (claim C4) -/

theorem elem_kl_self (a : ℝ) : a * Real.log (a / a) = 0 := by
  rcases eq_or_ne a 0 with rfl | h
  · simp
  · rw [div_self h, Real.log_one, mul_zero]

theorem elem_js_self (a : ℝ) :
    0.5 * a * Real.log (a / ((a + a) / 2)) + 0.5 * a * Real.log (a / ((a + a) / 2)) = 0 := by
  have hm : (a + a) / 2 = a := by ring
  rw [hm]
  rcases eq_or_ne a 0 with rfl | h0
  · simp
  · rw [div_self h0, Real.log_one]
    ring

theorem mean1_tzip_self {F : ℝ → ℝ → ℝ} (hF : ∀ a, F a a = 0) (y : List (List ℝ)) :
    mean1 (tzip F y y) = y.map (fun _ => 0) := by
  unfold mean1 tzip
  rw [List.zipWith_same, List.map_map]
  refine List.map_congr_left (fun r hr => ?_)
  simp only [Function.comp_apply]
  rw [List.zipWith_same]
  have hsum : (r.map fun a => F a a).sum = 0 := by
    refine List.sum_eq_zero (fun x hx => ?_)
    rcases List.mem_map.1 hx with ⟨a, _, rfl⟩
    exact hF a
  rw [hsum, zero_div]

/-- C4 (amended): with the two output heads identical, the l2_norm,
kl_divergence and js_divergence per-sample uncertainties are exactly zero;
the cross_entropy and focal_loss values are not zero in general (they reduce
to the weighted binary entropy of the input, see the counterexample). -/
theorem C4_identical_inputs_zero (y : List (List ℝ)) :
    uncertainty_all_N "l2_norm" y y = .ok (y.map (fun _ => 0))
      ∧ uncertainty_all_N "kl_divergence" y y = .ok (y.map (fun _ => 0))
      ∧ uncertainty_all_N "js_divergence" y y = .ok (y.map (fun _ => 0)) := by
  refine ⟨?_, ?_, ?_⟩
  · rw [uncertainty_all_N_l2, loss_l2_eq, mean1_tzip_self (fun a => by simp) y]
  · rw [uncertainty_all_N_kl, loss_kl_eq, mean1_tzip_self elem_kl_self y]
  · rw [uncertainty_all_N_js, loss_js_eq, mean1_tzip_self elem_js_self y]

/-- C4 counterexample: at the identical post-sigmoid inputs
y1 = y2 = [[1/2]], the cross_entropy uncertainty is log 2 and the focal_loss
uncertainty is (log 2)/8; neither is zero, refuting the claim that every
divergence-based metric evaluates to zero on identical tensors. -/
theorem C4_counterexample :
    uncertainty_all_N "cross_entropy" [[(1 : ℝ)/2]] [[(1 : ℝ)/2]] = .ok [Real.log 2]
      ∧ uncertainty_all_N "focal_loss" [[(1 : ℝ)/2]] [[(1 : ℝ)/2]] = .ok [Real.log 2 / 8]
      ∧ Real.log 2 ≠ 0 ∧ Real.log 2 / 8 ≠ 0 := by
  have hne : Real.log 2 ≠ 0 := ne_of_gt (Real.log_pos (by norm_num))
  have hhalf : ((1 : ℝ) - 1 / 2) = 1 / 2 := by norm_num
  have hlog : Real.log ((1 : ℝ) / 2) = -Real.log 2 := by
    rw [one_div, Real.log_inv]
  refine ⟨?_, ?_, hne, div_ne_zero hne (by norm_num)⟩
  · rw [uncertainty_all_N_ce, loss_ce_eq]
    unfold tzip mean1
    simp only [List.zipWith_cons_cons, List.zipWith_nil_right, List.map_cons, List.map_nil,
      List.sum_cons, List.sum_nil, List.length_cons, List.length_nil]
    rw [hhalf, hlog]
    norm_num
    ring
  · rw [uncertainty_all_N_focal, loss_focal_eq]
    unfold tzip mean1
    simp only [List.zipWith_cons_cons, List.zipWith_nil_right, List.map_cons, List.map_nil,
      List.sum_cons, List.sum_nil, List.length_cons, List.length_nil]
    rw [hhalf, hlog]
    norm_num
    ring

/-! ### Lines 159-160: argsort, negative slicing, top-k mean.
Stated over any linear ordered field, so the same definitions both apply to
the real-valued uncertainty vector and evaluate on rational test inputs. -/

/-- Comparison used by `uncertainty_all_N.argsort()`: order sample indices by
their uncertainty values, ascending. -/
def argsortRel {K : Type*} [LinearOrderedField K] (l : List K) : Nat → Nat → Prop :=
  fun i j => l.getD i 0 ≤ l.getD j 0

instance {K : Type*} [LinearOrderedField K] (l : List K) : DecidableRel (argsortRel l) :=
  fun _ _ => inferInstanceAs (Decidable (_ ≤ _))

instance {K : Type*} [LinearOrderedField K] (l : List K) : IsTotal Nat (argsortRel l) :=
  ⟨fun _ _ => le_total _ _⟩

instance {K : Type*} [LinearOrderedField K] (l : List K) : IsTrans Nat (argsortRel l) :=
  ⟨fun _ _ _ => le_trans⟩

instance {K : Type*} [LinearOrderedField K] : IsTotal K (fun a b : K => b ≤ a) :=
  ⟨fun a b => le_total b a⟩

instance {K : Type*} [LinearOrderedField K] : IsTrans K (fun a b : K => b ≤ a) :=
  ⟨fun _ _ _ h1 h2 => le_trans h2 h1⟩

instance {K : Type*} [LinearOrderedField K] : IsAntisymm K (fun a b : K => b ≤ a) :=
  ⟨fun _ _ h1 h2 => le_antisymm h2 h1⟩

/-- Line 159: `arg = uncertainty_all_N.argsort()` — the sample indices sorted
so that the corresponding uncertainty values ascend. -/
def argsort {K : Type*} [LinearOrderedField K] (l : List K) : List Nat :=
  List.insertionSort (argsortRel l) (List.range l.length)

/-- Python slicing `idx[-k:]` for a nonnegative int k: the last k elements;
the whole list when k = 0 (because `-0 == 0`) or when k ≥ length. -/
def pySliceLast (idx : List Nat) (k : Nat) : List Nat :=
  if k = 0 then idx else idx.drop (idx.length - k)

/-- Tensor fancy indexing `l[idx]`. -/
def gatherD {K : Type*} [LinearOrderedField K] (l : List K) (idx : List Nat) : List K :=
  idx.map (fun i => l.getD i 0)

/-- The arithmetic mean of a list, embedding `.mean()`. -/
def listMean {K : Type*} [LinearOrderedField K] (l : List K) : K :=
  l.sum / l.length

/-- Line 160: `uncertainty_single = uncertainty_all_N[arg[-cfg.k:]].mean()`. -/
def uncertainty_single {K : Type*} [LinearOrderedField K] (l : List K) (k : Nat) : K :=
  listMean (gatherD l (pySliceLast (argsort l) k))

theorem length_argsort {K : Type*} [LinearOrderedField K] (l : List K) :
    (argsort l).length = l.length := by
  unfold argsort
  rw [List.length_insertionSort, List.length_range]

theorem gatherD_range {K : Type*} [LinearOrderedField K] (l : List K) :
    gatherD l (List.range l.length) = l := by
  unfold gatherD
  refine List.ext_getElem (by simp) ?_
  intro i h1 h2
  simp only [List.getElem_map, List.getElem_range]
  exact List.getD_eq_getElem _ _ h2

theorem gatherD_drop {K : Type*} [LinearOrderedField K] (l : List K)
    (idx : List Nat) (m : Nat) : gatherD l (idx.drop m) = (gatherD l idx).drop m := by
  unfold gatherD
  exact List.map_drop _ idx m

/-- Gathering the values at the argsort indices yields the ascending sort of
the values. -/
theorem gatherD_argsort {K : Type*} [LinearOrderedField K] (l : List K) :
    gatherD l (argsort l) = List.insertionSort (fun a b : K => a ≤ b) l := by
  have hperm : List.Perm (gatherD l (argsort l)) l := by
    have h1 : List.Perm (gatherD l (argsort l)) (gatherD l (List.range l.length)) :=
      (List.perm_insertionSort (argsortRel l) (List.range l.length)).map _
    rw [gatherD_range l] at h1
    exact h1
  have hsorted : List.Sorted (fun a b : K => a ≤ b) (gatherD l (argsort l)) := by
    have hs := List.sorted_insertionSort (argsortRel l) (List.range l.length)
    exact List.Pairwise.map _ (fun i j hij => hij) hs
  exact List.eq_of_perm_of_sorted
    (hperm.trans (List.perm_insertionSort _ l).symm) hsorted
    (List.sorted_insertionSort _ l)

/-- Spec-side descending sort of the values. -/
def sortDesc {K : Type*} [LinearOrderedField K] (l : List K) : List K :=
  List.insertionSort (fun a b : K => b ≤ a) l

/-- Spec-side definition, following the spec text: the arithmetic mean of the
k largest values of the list. -/
def spec_topk_mean {K : Type*} [LinearOrderedField K] (l : List K) (k : Nat) : K :=
  listMean ((sortDesc l).take k)

theorem sortDesc_eq_reverse {K : Type*} [LinearOrderedField K] (l : List K) :
    sortDesc l = (List.insertionSort (fun a b : K => a ≤ b) l).reverse := by
  refine List.eq_of_perm_of_sorted ?_ (List.sorted_insertionSort _ l) ?_
  · exact (List.perm_insertionSort _ l).trans
      ((List.perm_insertionSort _ l).symm.trans (List.reverse_perm _).symm)
  · exact List.pairwise_reverse.2 (List.sorted_insertionSort _ l)

/-- The code value in terms of the ascending sort of the values. -/
theorem uncertainty_single_eq_sorted {K : Type*} [LinearOrderedField K]
    (l : List K) (k : Nat) :
    uncertainty_single l k
      = listMean (if k = 0 then List.insertionSort (fun a b : K => a ≤ b) l
          else (List.insertionSort (fun a b : K => a ≤ b) l).drop (l.length - k)) := by
  unfold uncertainty_single pySliceLast
  rcases eq_or_ne k 0 with rfl | hk
  · rw [if_pos rfl, if_pos rfl, gatherD_argsort]
  · rw [if_neg hk, if_neg hk, length_argsort, gatherD_drop, gatherD_argsort]

/-- C2: for every uncertainty vector of length N and every 1 ≤ k ≤ N, the
returned scalar equals the arithmetic mean of the k largest entries: the
ascending argsort sliced with [-k:] selects exactly the k greatest values. -/
theorem C2_topk_mean {K : Type*} [LinearOrderedField K] (l : List K) (k : Nat)
    (hk1 : 1 ≤ k) (_hk2 : k ≤ l.length) :
    uncertainty_single l k = spec_topk_mean l k := by
  rw [uncertainty_single_eq_sorted, if_neg (by omega)]
  unfold spec_topk_mean
  rw [sortDesc_eq_reverse, List.take_reverse, List.length_insertionSort]
  unfold listMean
  rw [List.sum_reverse, List.length_reverse]

/-- Witness for C2: on the rational vector [1, 3, 2] with k = 2 both sides
evaluate to 5/2, the mean of the two largest entries. -/
theorem C2_topk_mean_witness :
    (1 ≤ 2 ∧ 2 ≤ ([(1 : ℚ), 3, 2]).length)
      ∧ uncertainty_single [(1 : ℚ), 3, 2] 2 = spec_topk_mean [(1 : ℚ), 3, 2] 2
      ∧ uncertainty_single [(1 : ℚ), 3, 2] 2 = 5 / 2 := by
  refine ⟨by decide, C2_topk_mean _ 2 (by decide) (by decide), ?_⟩
  norm_num [uncertainty_single, listMean, gatherD, pySliceLast, argsort, argsortRel,
    List.insertionSort, List.orderedInsert, List.range, List.range.loop]

/-- C5: the final scalar is a permutation-invariant function of the
per-sample uncertainty values. -/
theorem C5_permutation_invariant {K : Type*} [LinearOrderedField K]
    (l1 l2 : List K) (k : Nat) (h : List.Perm l1 l2) :
    uncertainty_single l1 k = uncertainty_single l2 k := by
  have hs : List.insertionSort (fun a b : K => a ≤ b) l1
      = List.insertionSort (fun a b : K => a ≤ b) l2 :=
    List.eq_of_perm_of_sorted
      ((List.perm_insertionSort _ l1).trans (h.trans (List.perm_insertionSort _ l2).symm))
      (List.sorted_insertionSort _ l1) (List.sorted_insertionSort _ l2)
  rw [uncertainty_single_eq_sorted, uncertainty_single_eq_sorted, hs, h.length_eq]

/-- Witness for C5 at the permuted rational vectors [1, 3, 2] and [3, 2, 1]. -/
theorem C5_permutation_invariant_witness :
    List.Perm [(1 : ℚ), 3, 2] [3, 2, 1]
      ∧ uncertainty_single [(1 : ℚ), 3, 2] 3 = uncertainty_single [(3 : ℚ), 2, 1] 3 :=
  have hp : List.Perm [(1 : ℚ), 3, 2] [3, 2, 1] :=
    (List.Perm.swap 3 1 [2]).trans (List.Perm.cons 3 (List.Perm.swap 2 1 []))
  ⟨hp, C5_permutation_invariant _ _ 3 hp⟩

/-- C9: with cfg.k ≥ N the slice arg[-k:] silently selects all N indices and
the result is the mean over all samples, with no out-of-range error; with
cfg.k = 0 the slice arg[-0:] also selects all indices, not none. -/
theorem C9_out_of_range_k {K : Type*} [LinearOrderedField K] (l : List K) (k : Nat)
    (hk : l.length ≤ k) :
    (pySliceLast (argsort l) k = argsort l
        ∧ uncertainty_single l k = listMean l)
      ∧ (pySliceLast (argsort l) 0 = argsort l
        ∧ uncertainty_single l 0 = listMean l) := by
  have hmean : listMean (List.insertionSort (fun a b : K => a ≤ b) l) = listMean l := by
    unfold listMean
    rw [(List.perm_insertionSort _ l).sum_eq, (List.perm_insertionSort _ l).length_eq]
  have hzero : l.length - k = 0 := Nat.sub_eq_zero_of_le hk
  refine ⟨⟨?_, ?_⟩, ⟨?_, ?_⟩⟩
  · unfold pySliceLast
    rcases eq_or_ne k 0 with rfl | hk0
    · rw [if_pos rfl]
    · rw [if_neg hk0, length_argsort, hzero, List.drop_zero]
  · rw [uncertainty_single_eq_sorted]
    rcases eq_or_ne k 0 with rfl | hk0
    · rw [if_pos rfl, hmean]
    · rw [if_neg hk0, hzero, List.drop_zero, hmean]
  · unfold pySliceLast
    rw [if_pos rfl]
  · rw [uncertainty_single_eq_sorted, if_pos rfl, hmean]

/-- Witness for C9 on the rational vector [2, 5, 1] with k = 7 > 3. -/
theorem C9_out_of_range_k_witness :
    ([(2 : ℚ), 5, 1].length ≤ 7)
      ∧ ((pySliceLast (argsort [(2 : ℚ), 5, 1]) 7 = argsort [(2 : ℚ), 5, 1]
          ∧ uncertainty_single [(2 : ℚ), 5, 1] 7 = listMean [(2 : ℚ), 5, 1])
        ∧ (pySliceLast (argsort [(2 : ℚ), 5, 1]) 0 = argsort [(2 : ℚ), 5, 1]
          ∧ uncertainty_single [(2 : ℚ), 5, 1] 0 = listMean [(2 : ℚ), 5, 1])) :=
  ⟨by decide, C9_out_of_range_k _ 7 (by decide)⟩

/-! ### LoadImage (lines 50-74) -/

/-- A loaded image array; only its shape matters here. -/
structure NDArray where
  shape : List Nat
  deriving DecidableEq

/-- The `results['img']` entry accepted by `LoadImage.__call__`: either a
file name or an already-loaded array. -/
inductive ImgInput where
  | str (s : String)
  | arr (a : NDArray)
  deriving DecidableEq

/-- The keys of the result dict set by `LoadImage.__call__`. -/
structure LoadResults where
  img : NDArray
  filename : Option String
  ori_filename : Option String
  img_fields : List String
  img_shape : List Nat
  ori_shape : List Nat
  deriving DecidableEq

/-- Lines 53-74 of `LoadImage.__call__`, parametrized by the external
`mmcv.imread` (which reads a path or passes a loaded array through): when the
input is a string it becomes `filename` and `ori_filename`, otherwise both are
None; the loaded image is stored with `img_fields = ['img']` and both
`img_shape` and `ori_shape` set to its shape. -/
def LoadImage_call (imread : ImgInput → NDArray) (input : ImgInput) : LoadResults :=
  let fn : Option String :=
    match input with
    | .str s => some s
    | .arr _ => none
  let img := imread input
  { img := img
    filename := fn
    ori_filename := fn
    img_fields := ["img"]
    img_shape := img.shape
    ori_shape := img.shape }

/-- C10: the dict returned by `LoadImage.__call__` satisfies the invariant
that img_shape = ori_shape = the loaded image's shape, img_fields = ['img'],
and filename = ori_filename = the original string for a string input, both
None otherwise. -/
theorem C10_LoadImage_invariants (imread : ImgInput → NDArray) (input : ImgInput) :
    (LoadImage_call imread input).img_shape = (LoadImage_call imread input).ori_shape
      ∧ (LoadImage_call imread input).img_shape = (LoadImage_call imread input).img.shape
      ∧ (LoadImage_call imread input).img_fields = ["img"]
      ∧ (∀ s, input = .str s →
          (LoadImage_call imread input).filename = some s
            ∧ (LoadImage_call imread input).ori_filename = some s)
      ∧ (∀ a, input = .arr a →
          (LoadImage_call imread input).filename = none
            ∧ (LoadImage_call imread input).ori_filename = none) := by
  cases input <;> simp [LoadImage_call]

/-- Witness for C10 at a concrete reader and both input forms. -/
theorem C10_LoadImage_invariants_witness :
    ((LoadImage_call (fun _ => ⟨[2, 3, 3]⟩) (.str "a.jpg")).filename = some "a.jpg"
        ∧ (LoadImage_call (fun _ => ⟨[2, 3, 3]⟩) (.str "a.jpg")).ori_filename = some "a.jpg")
      ∧ ((LoadImage_call (fun _ => ⟨[2, 3, 3]⟩) (.arr ⟨[4, 5, 3]⟩)).filename = none
        ∧ (LoadImage_call (fun _ => ⟨[2, 3, 3]⟩) (.arr ⟨[4, 5, 3]⟩)).ori_filename = none) :=
  ⟨(C10_LoadImage_invariants (fun _ => ⟨[2, 3, 3]⟩) (.str "a.jpg")).2.2.2.1 "a.jpg" rfl,
    (C10_LoadImage_invariants (fun _ => ⟨[2, 3, 3]⟩) (.arr ⟨[4, 5, 3]⟩)).2.2.2.2 ⟨[4, 5, 3]⟩ rfl⟩

/-! ### init_detector (lines 15-47) -/

/-- An mmcv Config object, opaque except for identity. -/
structure Config where
  raw : String
  deriving DecidableEq

/-- A Python value passed as the `config` argument of `init_detector`: a
string, a Config, or a value of any other type (carrying the type name used
in the error message). -/
inductive PyConfigArg where
  | str (s : String)
  | config (c : Config)
  | other (tyName : String)
  deriving DecidableEq

/-- Lines 27-31 of `init_detector`: resolve the `config` argument,
parametrized by the external `mmcv.Config.fromfile`.  A string is loaded from
file, a Config passes through, and anything else raises TypeError (embedded
as `Except.error` with the message built from the offending type). -/
def resolve_config (fromfile : String → Config) : PyConfigArg → Except String Config
  | .str s => .ok (fromfile s)
  | .config c => .ok c
  | .other t => .error ("config must be a filename or Config object, but got " ++ t)

/-- `init_detector` reduced to the step order relevant here: the config
argument is resolved first, and only on success is the detector built (the
builder parameter stands for `build_detector` and the remaining setup of
lines 32-47). -/
def init_detector {M : Type} (fromfile : String → Config) (build : Config → M)
    (config : PyConfigArg) : Except String M :=
  (resolve_config fromfile config).map build

/-- C6: a config argument that is neither a string nor a Config makes
`init_detector` raise TypeError before any model is constructed; a string or
Config input raises no type error at this step. -/
theorem C6_init_detector_typecheck {M : Type} (fromfile : String → Config)
    (build : Config → M) (config : PyConfigArg) :
    (∀ t, config = .other t →
        init_detector fromfile build config
          = .error ("config must be a filename or Config object, but got " ++ t))
      ∧ (∀ s, config = .str s →
          init_detector fromfile build config = .ok (build (fromfile s)))
      ∧ (∀ c, config = .config c →
          init_detector fromfile build config = .ok (build c)) := by
  refine ⟨?_, ?_, ?_⟩ <;> (intro x hx; subst hx; rfl)

/-- Witness for C6 at a concrete loader and builder, for an invalid and a
valid config argument. -/
theorem C6_init_detector_typecheck_witness :
    init_detector (fun s => ⟨s⟩) (fun c => c) (.other "int")
        = .error ("config must be a filename or Config object, but got " ++ "int")
      ∧ init_detector (fun s => ⟨s⟩) (fun c => c) (.str "cfg.py") = .ok ⟨"cfg.py"⟩ :=
  ⟨(C6_init_detector_typecheck (fun s => ⟨s⟩) (fun c => c) (.other "int")).1 "int" rfl,
    (C6_init_detector_typecheck (fun s => ⟨s⟩) (fun c => c) (.str "cfg.py")).2.1 "cfg.py" rfl⟩

/-! ### Gradient-mode state (claim C7).
Torch grad-mode semantics as documented: `torch.no_grad()` used as a context
manager saves the entering grad flag, clears it for the body, and restores
the saved flag on exit; `torch.set_grad_enabled(b)` just sets the flag.
Every forward pass records the grad flag it ran under. -/

structure TorchState where
  grad_enabled : Bool
  forward_grad_flags : List Bool
  deriving DecidableEq

def set_grad_enabled (b : Bool) (s : TorchState) : TorchState :=
  { s with grad_enabled := b }

def forward_pass (s : TorchState) : TorchState :=
  { s with forward_grad_flags := s.forward_grad_flags ++ [s.grad_enabled] }

def no_grad_scope (body : TorchState → TorchState) (s : TorchState) : TorchState :=
  let prev := s.grad_enabled
  let s1 := body (set_grad_enabled false s)
  set_grad_enabled prev s1

/-- Lines 114-118 of `inference_detector`: both model forward calls run
inside `with torch.no_grad():`. -/
def inference_detector_forward (s : TorchState) : TorchState :=
  no_grad_scope (fun s0 => forward_pass (forward_pass s0)) s

/-- Lines 185-188 of `async_inference_detector`:
`torch.set_grad_enabled(False)` followed by the awaited forward pass, with no
restore afterwards. -/
def async_inference_detector_forward (s : TorchState) : TorchState :=
  forward_pass (set_grad_enabled false s)

/-- C7: every forward pass of `inference_detector` runs with gradient
tracking off and the prior gradient-tracking state is restored on exit,
whereas `async_inference_detector` disables gradient tracking globally and
leaves it off regardless of the caller's prior state. -/
theorem C7_grad_scopes (s : TorchState) :
    inference_detector_forward s
        = { grad_enabled := s.grad_enabled,
            forward_grad_flags := s.forward_grad_flags ++ [false, false] }
      ∧ async_inference_detector_forward s
        = { grad_enabled := false,
            forward_grad_flags := s.forward_grad_flags ++ [false] } := by
  constructor <;>
    simp [inference_detector_forward, async_inference_detector_forward,
      no_grad_scope, set_grad_enabled, forward_pass]

/-! ### Device placement (claim C8) -/

inductive Device where
  | cpu
  | cuda
  deriving DecidableEq

/-- `.cuda()` on a tensor: moves it to the GPU whatever its current device,
failing on a CUDA-less host. -/
def tensor_cuda (cuda_available : Bool) (_d : Device) : Except String Device :=
  if cuda_available then .ok .cuda else .error "CUDA is not available"

/-- `scatter(data, [device])` used in the CUDA branch: moves the tensor to
the model's CUDA device, failing without CUDA. -/
def scatter_to (cuda_available : Bool) : Device → Except String Device
  | .cuda => if cuda_available then .ok .cuda else .error "CUDA is not available"
  | .cpu => .ok .cpu

/-- Lines 97-115 of `inference_detector`: after `collate` the image tensor is
on the CPU; the branch on `next(model.parameters()).is_cuda` either scatters
the data to the model device or (CPU branch) only rewrites RoI modules and
unwraps the DataContainer; then line 115 unconditionally calls
`data['img'][0].cuda()` before the forward pass. -/
def inference_detector_img_device (model_is_cuda cuda_available : Bool) :
    Except String Device := do
  let d ← if model_is_cuda then scatter_to cuda_available Device.cuda
    else pure Device.cpu
  tensor_cuda cuda_available d

/-- C8: the image tensor is unconditionally moved to CUDA before the forward
pass — also after the CPU branch that rewrites RoIPool/RoIAlign — so on a
CUDA-less host `inference_detector` fails for every model placement, and with
CUDA available the tensor ends on the CUDA device in both branches. -/
theorem C8_unconditional_cuda (model_is_cuda : Bool) :
    inference_detector_img_device model_is_cuda false = .error "CUDA is not available"
      ∧ inference_detector_img_device model_is_cuda true = .ok Device.cuda := by
  cases model_is_cuda <;> exact ⟨rfl, rfl⟩

end MIAOD
